import Mathlib

/-!
Shallow embedding of the codepathfinder matcher/IR compilation subsystem.

The definitions below are translated from the Python sources:
  * `python-sdk/codepathfinder/matchers.py`   (CallMatcher, VariableMatcher)
  * `python-sdk/codepathfinder/propagation.py` (PropagationType, PropagationPrimitive, propagates)
  * `python-sdk/codepathfinder/presets.py`    (PropagationPresets)
  * `python-sdk/codepathfinder/dataflow.py`   (DataflowMatcher)
  * `python-sdk/codepathfinder/logic.py`      (AndOperator, OrOperator, NotOperator)
  * `python-sdk/codepathfinder/decorators.py` (Rule, rule, registry, exit-time emission)
  * `python-dsl/codepathfinder/ir.py`         (IRType, serialize_ir, validate_ir)
  * `python-dsl/codepathfinder/config.py`     (PathfinderConfig, default scope / propagation)
  * `python-dsl/codepathfinder/matchers.py`   (the DSL variant of CallMatcher)

Python dicts are modelled as insertion-ordered association lists of
`String × JValue`; JSON values as the inductive `JValue`; raised exceptions
as `Except String`; the process-wide mutable configuration and the
registry/exit-hook state as explicit state values threaded through the
operations.
-/

namespace CodePathfinder

/-- JSON values, the codomain of `to_ir` serialization.  Python dicts keep
insertion order, so objects are ordered association lists. -/
inductive JValue where
  | str (s : String)
  | int (n : Int)
  | float (x : Float)
  | bool (b : Bool)
  | null
  | arr (xs : List JValue)
  | obj (fields : List (String × JValue))

/-- A Python dict with string keys, in insertion order. -/
abbrev Dict := List (String × JValue)

/-- `d[k] = v` on a Python dict: replace the value in place if the key is
present (position preserved), otherwise append the new binding at the end. -/
def dictSet (d : Dict) (k : String) (v : JValue) : Dict :=
  if d.any (fun e => e.1 == k) then
    d.map (fun e => if e.1 == k then (k, v) else e)
  else
    d ++ [(k, v)]

/-- `k in d` / `d[k]` on a Python dict (keys are unique in real dicts, so
first match is the binding). -/
def dictGet (d : Dict) (k : String) : Option JValue :=
  d.lookup k

/-- Python `c in s` for a single-character needle: a scan of the string's
characters. -/
def strContains (s : String) (c : Char) : Bool :=
  s.data.contains c

/-- Python `str.strip()` with no argument: remove leading and trailing
whitespace. -/
def pyStrip (s : String) : String :=
  ⟨((s.data.dropWhile Char.isWhitespace).reverse.dropWhile Char.isWhitespace).reverse⟩

/-! ## `propagation.py` : PropagationType, PropagationPrimitive, propagates -/

/-- `PropagationType`: the closed enum of propagation primitive tags
(phases 1-6). -/
inductive PropagationType where
  | assignment | function_args | function_returns
  | string_concat | string_format
  | list_append | list_extend | dict_values | dict_update | set_add
  | if_condition | for_iteration | while_condition | switch_case
  | attribute_assignment | method_call | constructor
  | comprehension | lambda_capture | yield_stmt
  deriving DecidableEq, Repr

/-- `PropagationType(...).value`: the string value of each enum member. -/
def PropagationType.value : PropagationType → String
  | .assignment => "assignment"
  | .function_args => "function_args"
  | .function_returns => "function_returns"
  | .string_concat => "string_concat"
  | .string_format => "string_format"
  | .list_append => "list_append"
  | .list_extend => "list_extend"
  | .dict_values => "dict_values"
  | .dict_update => "dict_update"
  | .set_add => "set_add"
  | .if_condition => "if_condition"
  | .for_iteration => "for_iteration"
  | .while_condition => "while_condition"
  | .switch_case => "switch_case"
  | .attribute_assignment => "attribute_assignment"
  | .method_call => "method_call"
  | .constructor => "constructor"
  | .comprehension => "comprehension"
  | .lambda_capture => "lambda_capture"
  | .yield_stmt => "yield_stmt"

/-- `PropagationPrimitive`: a propagation tag plus a metadata mapping
(`metadata or {}` in `__init__`; all built-in constructors pass none, so
metadata is `[]` there). -/
structure PropagationPrimitive where
  type : PropagationType
  metadata : Dict := []

/-- `PropagationPrimitive.to_ir`: `{"type": self.type.value, "metadata": self.metadata}`. -/
def PropagationPrimitive.to_ir (p : PropagationPrimitive) : Dict :=
  [("type", .str p.type.value), ("metadata", .obj p.metadata)]

-- The `propagates` namespace of built-in primitive constructors.
namespace propagates

def assignment : PropagationPrimitive := { type := .assignment }

def function_args : PropagationPrimitive := { type := .function_args }

def function_returns : PropagationPrimitive := { type := .function_returns }

def string_concat : PropagationPrimitive := { type := .string_concat }

def string_format : PropagationPrimitive := { type := .string_format }

end propagates

/-- `create_propagation_list`: serialize each primitive to IR. -/
def create_propagation_list (primitives : List PropagationPrimitive) : List JValue :=
  primitives.map (fun prim => .obj prim.to_ir)

/-! ## `presets.py` : PropagationPresets -/

namespace PropagationPresets

/-- `PropagationPresets.minimal()`. -/
def minimal : List PropagationPrimitive :=
  [propagates.assignment, propagates.function_args]

/-- `PropagationPresets.standard()`. -/
def standard : List PropagationPrimitive :=
  [propagates.assignment, propagates.function_args, propagates.function_returns,
   propagates.string_concat, propagates.string_format]

/-- `PropagationPresets.comprehensive()`: for MVP, comprehensive = standard. -/
def comprehensive : List PropagationPrimitive := standard

/-- `PropagationPresets.exhaustive()`: MVP, same as comprehensive. -/
def exhaustive : List PropagationPrimitive := comprehensive

end PropagationPresets

/-! ## `matchers.py` (python-sdk) : CallMatcher, VariableMatcher -/

/-- A scalar member of the `ArgumentValue` union
`Union[str, int, float, bool, ...]`. -/
inductive Scalar where
  | s (v : String)
  | i (v : Int)
  | f (v : Float)
  | b (v : Bool)

/-- `ArgumentValue = Union[str, int, float, bool, List[Union[str, int, float, bool]]]`. -/
inductive ArgumentValue where
  | scalar (v : Scalar)
  | list (vs : List Scalar)

/-- JSON encoding of a scalar (identity: these values are already JSON). -/
def Scalar.toJson : Scalar → JValue
  | .s v => .str v
  | .i v => .int v
  | .f v => .float v
  | .b v => .bool v

/-- JSON encoding of an `ArgumentValue`. -/
def ArgumentValue.toJson : ArgumentValue → JValue
  | .scalar v => v.toJson
  | .list vs => .arr (vs.map Scalar.toJson)

/-- The wildcard auto-detection of `CallMatcher._make_constraint`:
`isinstance(value, str) and ("*" in value or "?" in value)`, or for a list,
`any(isinstance(v, str) and ("*" in v or "?" in v) for v in value)`. -/
def argHasWildcard : ArgumentValue → Bool
  | .scalar (.s v) => strContains v '*' || strContains v '?'
  | .scalar _ => false
  | .list vs => vs.any (fun v =>
      match v with
      | .s s => strContains s '*' || strContains s '?'
      | _ => false)

/-- A positional-argument key: `match_position` accepts int keys (`{0: ...}`)
and string keys (`{"0[0]": ...}`). -/
inductive PosKey where
  | int (n : Int)
  | str (s : String)

/-- `str(pos)`: how a positional key is rendered in the emitted IR mapping. -/
def PosKey.toStr : PosKey → String
  | .int n => toString n
  | .str s => s

/-- The `CallMatcher` object state after a successful `__init__`
(python-sdk variant, with argument constraints). -/
structure CallMatcher where
  patterns : List String
  wildcard : Bool
  match_position : List (PosKey × ArgumentValue)
  match_name : List (String × ArgumentValue)

/-- `CallMatcher.__init__` (python-sdk `matchers.py`): raises `ValueError`
if no patterns are given or any pattern is empty; computes
`wildcard = any("*" in p for p in patterns)`; normalizes absent
constraint mappings to empty dicts (`match_position or {}`). -/
def CallMatcher.init (patterns : List String)
    (match_position : Option (List (PosKey × ArgumentValue)) := none)
    (match_name : Option (List (String × ArgumentValue)) := none) :
    Except String CallMatcher :=
  if patterns = [] then
    .error "calls() requires at least one pattern"
  else if patterns.any (fun p => p = "") then
    .error "All patterns must be non-empty strings"
  else
    .ok { patterns := patterns
          wildcard := patterns.any (fun p => strContains p '*')
          match_position := match_position.getD []
          match_name := match_name.getD [] }

/-- `CallMatcher._make_constraint`: `{"value": value, "wildcard": has_wildcard}`
with wildcard auto-detected from string scalars. -/
def CallMatcher.make_constraint (value : ArgumentValue) : Dict :=
  [("value", value.toJson), ("wildcard", .bool (argHasWildcard value))]

/-- The constraint as emitted by `CallMatcher.to_ir`: `_make_constraint`
followed by `if self.wildcard: constraint["wildcard"] = True`. -/
def CallMatcher.emitConstraint (m : CallMatcher) (value : ArgumentValue) : Dict :=
  let constraint := CallMatcher.make_constraint value
  if m.wildcard then dictSet constraint "wildcard" (.bool true) else constraint

/-- The `positional_args` dict built by the first loop of
`CallMatcher.to_ir`: `positional_args[str(pos)] = constraint` per entry. -/
def CallMatcher.positionalArgsIr (m : CallMatcher) : Dict :=
  m.match_position.foldl
    (fun acc e => dictSet acc e.1.toStr (.obj (m.emitConstraint e.2))) []

/-- The `keyword_args` dict built by the second loop of `CallMatcher.to_ir`:
`keyword_args[name] = constraint` per entry. -/
def CallMatcher.keywordArgsIr (m : CallMatcher) : Dict :=
  m.match_name.foldl
    (fun acc e => dictSet acc e.1 (.obj (m.emitConstraint e.2))) []

/-- `CallMatcher.to_ir` (python-sdk `matchers.py`): the base object with
`type`, `patterns`, `wildcard`, `matchMode`, plus `positionalArgs` /
`keywordArgs` added only when the respective mapping is truthy (non-empty). -/
def CallMatcher.to_ir (m : CallMatcher) : Dict :=
  let ir : Dict :=
    [("type", .str "call_matcher"),
     ("patterns", .arr (m.patterns.map .str)),
     ("wildcard", .bool m.wildcard),
     ("matchMode", .str "any")]
  let ir := if m.match_position.isEmpty then ir
            else dictSet ir "positionalArgs" (.obj m.positionalArgsIr)
  if m.match_name.isEmpty then ir
  else dictSet ir "keywordArgs" (.obj m.keywordArgsIr)

/-- The `VariableMatcher` object state after a successful `__init__`. -/
structure VariableMatcher where
  pattern : String
  wildcard : Bool

/-- `VariableMatcher.__init__`: raises `ValueError` on an empty pattern;
`wildcard = "*" in pattern`. -/
def VariableMatcher.init (pattern : String) : Except String VariableMatcher :=
  if pattern = "" then
    .error "variable() requires a non-empty string pattern"
  else
    .ok { pattern := pattern, wildcard := strContains pattern '*' }

/-- `VariableMatcher.to_ir`. -/
def VariableMatcher.to_ir (m : VariableMatcher) : Dict :=
  [("type", .str "variable_matcher"),
   ("pattern", .str m.pattern),
   ("wildcard", .bool m.wildcard)]

/-! ## `matchers.py` (python-dsl) : the DSL variant of CallMatcher

The python-dsl package has its own `CallMatcher` without argument
constraints, whose `to_ir` spells the mode key `"match_mode"`. -/

namespace DSL

/-- The python-dsl `CallMatcher` object state. -/
structure CallMatcher where
  patterns : List String
  wildcard : Bool

/-- `CallMatcher.__init__` (python-dsl `matchers.py`). -/
def CallMatcher.init (patterns : List String) : Except String CallMatcher :=
  if patterns = [] then
    .error "calls() requires at least one pattern"
  else if patterns.any (fun p => p = "") then
    .error "All patterns must be non-empty strings"
  else
    .ok { patterns := patterns
          wildcard := patterns.any (fun p => strContains p '*') }

/-- `CallMatcher.to_ir` (python-dsl `matchers.py`): note the key is
`"match_mode"` in this variant. -/
def CallMatcher.to_ir (m : CallMatcher) : Dict :=
  [("type", .str "call_matcher"),
   ("patterns", .arr (m.patterns.map JValue.str)),
   ("wildcard", .bool m.wildcard),
   ("match_mode", .str "any")]

end DSL

/-! ## `config.py` : process-wide default configuration -/

/-- The state of the `PathfinderConfig` singleton. -/
structure PathfinderConfig where
  default_propagation : List PropagationPrimitive
  default_scope : String

/-- The class-level initial values: `_default_propagation = []`,
`_default_scope = "global"`. -/
def initialConfig : PathfinderConfig :=
  { default_propagation := [], default_scope := "global" }

/-- The `default_scope` property setter: raises `ValueError` when the value
is outside `["local", "global"]` (in which case the stored value is left
unchanged), otherwise stores it. -/
def set_default_scope (cfg : PathfinderConfig) (value : String) :
    Except String PathfinderConfig :=
  if value ∈ ["local", "global"] then
    .ok { cfg with default_scope := value }
  else
    .error ("scope must be local or global, got " ++ value)

/-- The `default_propagation` property setter (no validation). -/
def set_default_propagation (cfg : PathfinderConfig)
    (primitives : List PropagationPrimitive) : PathfinderConfig :=
  { cfg with default_propagation := primitives }

/-- `get_default_propagation()`. -/
def get_default_propagation (cfg : PathfinderConfig) : List PropagationPrimitive :=
  cfg.default_propagation

/-- `get_default_scope()`. -/
def get_default_scope (cfg : PathfinderConfig) : String :=
  cfg.default_scope

/-- One mutation of the process-wide configuration through its setter entry
points. -/
inductive ConfigOp where
  | setPropagation (primitives : List PropagationPrimitive)
  | setScope (value : String)

/-- Apply one setter call to the configuration state.  A `ValueError`
raised by the scope setter propagates to the caller and the stored value
stays unchanged. -/
def applyConfigOp (cfg : PathfinderConfig) : ConfigOp → PathfinderConfig
  | .setPropagation ps => set_default_propagation cfg ps
  | .setScope v =>
      match set_default_scope cfg v with
      | .ok cfg' => cfg'
      | .error _ => cfg

/-- The configuration reached from process start after a sequence of setter
calls. -/
def runConfigOps (ops : List ConfigOp) : PathfinderConfig :=
  ops.foldl applyConfigOp initialConfig

/-! ## `dataflow.py` : DataflowMatcher -/

/-- `Union[CallMatcher, List[CallMatcher]]`, the type of the
`from_sources` / `to_sinks` / `sanitized_by` arguments. -/
inductive CallMatcherOrList where
  | single (m : CallMatcher)
  | list (ms : List CallMatcher)

/-- The `isinstance(x, CallMatcher)` normalization: a bare matcher becomes
a one-element list. -/
def CallMatcherOrList.normalize : CallMatcherOrList → List CallMatcher
  | .single m => [m]
  | .list ms => ms

/-- The `DataflowMatcher` object state after a successful `__init__`. -/
structure DataflowMatcher where
  sources : List CallMatcher
  sinks : List CallMatcher
  sanitizers : List CallMatcher
  propagates_through : List PropagationPrimitive
  scope : String

/-- `DataflowMatcher.__init__` (python-sdk `dataflow.py`): normalizes bare
matchers to lists, raises on empty sources/sinks, resolves `None`
propagation from `get_default_propagation()` and `None` scope from
`get_default_scope()`, and raises on a scope outside `["local", "global"]`.
The process-wide configuration read by the two getters is passed
explicitly as `cfg`. -/
def DataflowMatcher.init (from_sources to_sinks : CallMatcherOrList)
    (sanitized_by : Option CallMatcherOrList := none)
    (propagates_through : Option (List PropagationPrimitive) := none)
    (scope : Option String := none)
    (cfg : PathfinderConfig := initialConfig) :
    Except String DataflowMatcher :=
  let sources := from_sources.normalize
  if sources.isEmpty then .error "flows() requires at least one source"
  else
    let sinks := to_sinks.normalize
    if sinks.isEmpty then .error "flows() requires at least one sink"
    else
      let sanitizers :=
        match sanitized_by with
        | none => []
        | some s => s.normalize
      let props :=
        match propagates_through with
        | none => get_default_propagation cfg
        | some ps => ps
      let sc :=
        match scope with
        | none => get_default_scope cfg
        | some s => s
      if sc ∈ ["local", "global"] then
        .ok { sources := sources, sinks := sinks, sanitizers := sanitizers
              propagates_through := props, scope := sc }
      else
        .error ("scope must be local or global, got " ++ sc)

/-- `DataflowMatcher.to_ir`. -/
def DataflowMatcher.to_ir (m : DataflowMatcher) : Dict :=
  [("type", .str "dataflow"),
   ("sources", .arr (m.sources.map (fun src => .obj src.to_ir))),
   ("sinks", .arr (m.sinks.map (fun sink => .obj sink.to_ir))),
   ("sanitizers", .arr (m.sanitizers.map (fun san => .obj san.to_ir))),
   ("propagation", .arr (create_propagation_list m.propagates_through)),
   ("scope", .str m.scope)]

/-! ## `logic.py` : And / Or / Not over the full matcher union -/

/-- `MatcherType`: the union of every matcher kind, closed under the
logical combinators (an arbitrarily nested expression tree). -/
inductive Matcher where
  | call (m : CallMatcher)
  | var (m : VariableMatcher)
  | dataflow (m : DataflowMatcher)
  | andOp (ms : List Matcher)
  | orOp (ms : List Matcher)
  | notOp (m : Matcher)

/-- `AndOperator.__init__`: raises `ValueError` with fewer than 2 matchers. -/
def mkAnd (matchers : List Matcher) : Except String Matcher :=
  if matchers.length < 2 then
    .error "And() requires at least 2 matchers"
  else
    .ok (.andOp matchers)

/-- `OrOperator.__init__`: raises `ValueError` with fewer than 2 matchers. -/
def mkOr (matchers : List Matcher) : Except String Matcher :=
  if matchers.length < 2 then
    .error "Or() requires at least 2 matchers"
  else
    .ok (.orOp matchers)

/-- `NotOperator.__init__`: takes exactly one matcher, no validation. -/
def mkNot (matcher : Matcher) : Matcher := .notOp matcher

mutual

/-- `to_ir` dispatched over the matcher union: each combinator serializes
its children recursively, the leaves serialize as in `matchers.py` /
`dataflow.py`. -/
def Matcher.to_ir : Matcher → Dict
  | .call m => m.to_ir
  | .var m => m.to_ir
  | .dataflow m => m.to_ir
  | .andOp ms => [("type", .str "logic_and"), ("matchers", .arr (Matcher.toIrList ms))]
  | .orOp ms => [("type", .str "logic_or"), ("matchers", .arr (Matcher.toIrList ms))]
  | .notOp m => [("type", .str "logic_not"), ("matcher", .obj m.to_ir)]

/-- `[m.to_ir() for m in self.matchers]`. -/
def Matcher.toIrList : List Matcher → List JValue
  | [] => []
  | m :: ms => .obj m.to_ir :: Matcher.toIrList ms

end

/-! ## `ir.py` (python-dsl) : IRType, serialize_ir, validate_ir -/

/-- `IRType`: the enum of IR node tags. -/
inductive IRType where
  | call_matcher | variable_matcher | dataflow | logic_and | logic_or | logic_not
  deriving DecidableEq

/-- `IRType(value)` on a decoded JSON value: succeeds exactly on the six
tag strings, otherwise the `ValueError` is caught and `validate_ir`
answers false, modelled by `none`. -/
def irTypeOfValue : JValue → Option IRType
  | .str s =>
      if s = "call_matcher" then some .call_matcher
      else if s = "variable_matcher" then some .variable_matcher
      else if s = "dataflow" then some .dataflow
      else if s = "logic_and" then some .logic_and
      else if s = "logic_or" then some .logic_or
      else if s = "logic_not" then some .logic_not
      else none
  | _ => none

/-- `validate_ir` (python-dsl `ir.py`): a total boolean structural check
over a decoded IR node.  Mirrors the chain of `in` / `isinstance` / length
tests of the source, including the fall-through `return True` for
recognized tags without deep validation. -/
def validate_ir (ir : Dict) : Bool :=
  match dictGet ir "type" with
  | none => false
  | some tv =>
    match irTypeOfValue tv with
    | none => false
    | some .call_matcher =>
        (match dictGet ir "patterns" with
         | some (.arr ps) => !ps.isEmpty
         | _ => false)
        &&
        (match dictGet ir "wildcard" with
         | some (.bool _) => true
         | _ => false)
    | some .variable_matcher =>
        (match dictGet ir "pattern" with
         | some (.str p) => p ≠ ""
         | _ => false)
        &&
        (match dictGet ir "wildcard" with
         | some (.bool _) => true
         | _ => false)
    | some .dataflow =>
        (match dictGet ir "sources" with
         | some (.arr srcs) => !srcs.isEmpty
         | _ => false)
        &&
        (match dictGet ir "sinks" with
         | some (.arr sinks) => !sinks.isEmpty
         | _ => false)
        &&
        (match dictGet ir "sanitizers" with
         | some (.arr _) => true
         | _ => false)
        &&
        (match dictGet ir "propagation" with
         | some (.arr _) => true
         | _ => false)
        &&
        (match dictGet ir "scope" with
         | some (.str s) => s = "local" || s = "global"
         | _ => false)
    | some _ => true

/-- `serialize_ir`: all matcher union members implement `to_ir`, so the
`hasattr` guard passes and the call dispatches to the member. -/
def serialize_ir (matcher : Matcher) : Dict := matcher.to_ir

/-! ## `decorators.py` (python-sdk) : Rule, @rule, registry, exit emission -/

/-- A Python function object as seen by the decorator: its `__name__`,
its `__doc__`, and its zero-argument body, which either returns a matcher
tree or raises. -/
structure PyFunc where
  name : String
  doc : Option String
  call : Unit → Except String Matcher

/-- The `Rule` object state after `Rule.__init__` (which reads
`func.__name__` and `func.__doc__ or ""` but does not call `func`). -/
structure Rule where
  id : String
  name : String
  severity : String
  cwe : Option String
  owasp : Option String
  description : String
  func : Unit → Except String Matcher

/-- `Rule.__init__`. -/
def Rule.init (id : String) (severity : String) (func : PyFunc)
    (cwe : Option String := none) (owasp : Option String := none) : Rule :=
  { id := id
    name := func.name
    severity := severity
    cwe := cwe
    owasp := owasp
    description := func.doc.getD ""
    func := func.call }

/-- `None`-or-string rule metadata as JSON. -/
def optStr : Option String → JValue
  | none => .null
  | some s => .str s

/-- `Rule.execute`: calls the producer function (its exception, if any,
propagates here) and serializes the rule record plus the matcher IR. -/
def Rule.execute (r : Rule) : Except String JValue := do
  let matcher ← r.func ()
  pure (.obj
    [("rule", .obj
      [("id", .str r.id),
       ("name", .str r.name),
       ("severity", .str r.severity),
       ("cwe", optStr r.cwe),
       ("owasp", optStr r.owasp),
       ("description", .str (pyStrip r.description))]),
     ("matcher", .obj (serialize_ir matcher))])

/-- The module-level emission state: the `_auto_execute_enabled` flag and
the number of `_output_rules` handlers registered with `atexit`. -/
structure EmissionState where
  autoExecuteEnabled : Bool
  handlers : Nat

/-- The state at interpreter start: flag clear, no handler registered. -/
def emissionInit : EmissionState := { autoExecuteEnabled := false, handlers := 0 }

/-- `_enable_auto_execute`: returns immediately when the flag is already
set, otherwise sets it and registers one `_output_rules` handler. -/
def enableAutoExecute (s : EmissionState) : EmissionState :=
  if s.autoExecuteEnabled then s
  else { autoExecuteEnabled := true, handlers := s.handlers + 1 }

/-- `[rule.execute() for rule in _rule_registry]`: executes in order, the
first exception propagates. -/
def collectExecutes : List Rule → Except String (List JValue)
  | [] => .ok []
  | r :: rs => do
      let j ← r.execute
      let js ← collectExecutes rs
      pure (j :: js)

/-- `_output_rules`: the lines printed to stdout by one run of the exit
handler.  An empty registry prints nothing; otherwise all rules are
executed and one JSON array is printed (an exception inside the handler
reaches `print` never, so nothing is printed on that path either). -/
def output_rules (registry : List Rule) : List JValue :=
  if registry.isEmpty then []
  else
    match collectExecutes registry with
    | .ok js => [.arr js]
    | .error _ => []

/-- What normal process exit prints: every registered `atexit` handler
runs `_output_rules` once. -/
def runExitHandlers (s : EmissionState) (registry : List Rule) : List JValue :=
  (List.replicate s.handlers (output_rules registry)).flatten

/-- `_register_rule`: appends the rule to the process-wide registry, then
arms the exit hook when the defining module is `__main__`.  Note the
append is unconditional and the producer function is not called. -/
def registerRule (r : Rule) (registry : List Rule) (isMain : Bool)
    (s : EmissionState) : List Rule × EmissionState :=
  (registry ++ [r], if isMain then enableAutoExecute s else s)

/-- The `@rule(...)` decorator applied to a function: builds the `Rule`
(capturing metadata only), registers it, and returns it together with the
updated registry and emission state. -/
def ruleDecorator (id : String) (severity : String)
    (cwe : Option String) (owasp : Option String) (func : PyFunc)
    (registry : List Rule) (isMain : Bool) (s : EmissionState) :
    Rule × List Rule × EmissionState :=
  let rule_obj := Rule.init id severity func cwe owasp
  let (registry', s') := registerRule rule_obj registry isMain s
  (rule_obj, registry', s')

/-! ## Helper lemmas -/

/-- Assigning a key that is not present in a dict appends the binding. -/
theorem dictSet_of_fresh (d : Dict) (k : String) (v : JValue)
    (h : d.any (fun e => e.1 == k) = false) :
    dictSet d k v = d ++ [(k, v)] := by
  simp [dictSet, h]

/-- `Matcher.toIrList` is the elementwise serialization of the list. -/
theorem toIrList_eq_map (ms : List Matcher) :
    Matcher.toIrList ms = ms.map (fun m => JValue.obj m.to_ir) := by
  induction ms with
  | nil => rfl
  | cons m ms ih => simp [Matcher.toIrList, ih]

/-- Building a dict by repeated assignment from entries with pairwise
distinct keys, all fresh for the accumulator, appends the entries in
order. -/
theorem foldl_dictSet_of_nodup {α : Type} (f : α → String) (g : α → JValue)
    (l : List α) (d : Dict)
    (hnd : (l.map f).Nodup)
    (hdis : ∀ a ∈ l, ∀ e ∈ d, e.1 ≠ f a) :
    l.foldl (fun acc a => dictSet acc (f a) (g a)) d
      = d ++ l.map (fun a => (f a, g a)) := by
  induction l generalizing d with
  | nil => simp
  | cons a l ih =>
    simp only [List.map_cons, List.nodup_cons] at hnd
    have hfresh : d.any (fun e => e.1 == f a) = false := by
      rw [List.any_eq_false]
      intro e he
      simp only [beq_iff_eq]
      exact hdis a (List.mem_cons_self a l) e he
    have hdis' : ∀ b ∈ l, ∀ e ∈ d ++ [(f a, g a)], e.1 ≠ f b := by
      intro b hb e he
      rcases List.mem_append.mp he with hd | hsing
      · exact hdis b (List.mem_cons_of_mem a hb) e hd
      · simp only [List.mem_singleton] at hsing
        subst hsing
        intro hcontra
        have heq : f a = f b := hcontra
        exact hnd.1 (by rw [heq]; exact List.mem_map_of_mem f hb)
    simp only [List.foldl_cons, List.map_cons]
    rw [dictSet_of_fresh d (f a) (g a) hfresh, ih (d ++ [(f a, g a)]) hnd.2 hdis',
      List.append_assoc]
    rfl

/-! ## Claim theorems -/

/-- C9: the propagation presets are ordered lists with `minimal` equal to
`[assignment, function_args]`, `standard` equal to `[assignment,
function_args, function_returns, string_concat, string_format]`,
`comprehensive` equal to `standard`, and `exhaustive` equal to
`comprehensive`, in the stated order. -/
theorem C9_propagation_presets :
    PropagationPresets.minimal = [propagates.assignment, propagates.function_args]
    ∧ PropagationPresets.minimal.map PropagationPrimitive.type
        = [PropagationType.assignment, PropagationType.function_args]
    ∧ PropagationPresets.standard
        = [propagates.assignment, propagates.function_args,
           propagates.function_returns, propagates.string_concat,
           propagates.string_format]
    ∧ PropagationPresets.standard.map PropagationPrimitive.type
        = [PropagationType.assignment, PropagationType.function_args,
           PropagationType.function_returns, PropagationType.string_concat,
           PropagationType.string_format]
    ∧ PropagationPresets.comprehensive = PropagationPresets.standard
    ∧ PropagationPresets.exhaustive = PropagationPresets.comprehensive :=
  ⟨rfl, rfl, rfl, rfl, rfl, rfl⟩

/-- C7: for all non-empty lists `P` of non-empty string patterns,
construction succeeds, `CallMatcher(P).wildcard` equals `true` exactly when
some pattern contains `'*'`, and the `patterns` field of `to_ir()` is `P`
with order preserved. -/
theorem C7_call_matcher_wildcard_patterns (P : List String)
    (h1 : P ≠ []) (h2 : ∀ p ∈ P, p ≠ "") :
    ∃ m : CallMatcher, CallMatcher.init P none none = .ok m
      ∧ m.wildcard = P.any (fun p => strContains p '*')
      ∧ (m.wildcard = true ↔ ∃ p ∈ P, strContains p '*')
      ∧ m.patterns = P
      ∧ dictGet m.to_ir "patterns" = some (.arr (P.map JValue.str)) := by
  have ha : P.any (fun p => p = "") = false := by
    rw [List.any_eq_false]
    intro p hp
    simp [h2 p hp]
  refine ⟨{ patterns := P
            wildcard := P.any (fun p => strContains p '*')
            match_position := []
            match_name := [] }, ?_, rfl, ?_, rfl, ?_⟩
  · unfold CallMatcher.init
    rw [if_neg h1, if_neg (by simp [ha])]
    rfl
  · simp [List.any_eq_true]
  · simp [CallMatcher.to_ir, dictGet, List.lookup]

/-- Witness for C7 at `P = ["eval", "os.*"]`. -/
theorem C7_witness :
    (["eval", "os.*"] : List String) ≠ []
    ∧ (∀ p ∈ (["eval", "os.*"] : List String), p ≠ "")
    ∧ ∃ m : CallMatcher, CallMatcher.init ["eval", "os.*"] none none = .ok m
        ∧ m.wildcard = (["eval", "os.*"] : List String).any (fun p => strContains p '*')
        ∧ (m.wildcard = true ↔ ∃ p ∈ (["eval", "os.*"] : List String), strContains p '*')
        ∧ m.patterns = ["eval", "os.*"]
        ∧ dictGet m.to_ir "patterns"
            = some (.arr ((["eval", "os.*"] : List String).map JValue.str)) :=
  ⟨by decide, by decide,
   C7_call_matcher_wildcard_patterns ["eval", "os.*"] (by decide) (by decide)⟩

/-- C8: `And`/`Or` construction fails with the insufficient-matchers error
whenever fewer than 2 matchers are supplied; with 2 or more it succeeds and
the `matchers` field of `to_ir()` has the same length and order as the
constructor arguments, each recursively serialized; `Not` takes exactly one
matcher and serializes it under the single `matcher` field. -/
theorem C8_logic_operators (ms : List Matcher) (m : Matcher) :
    (ms.length < 2 →
        mkAnd ms = .error "And() requires at least 2 matchers"
        ∧ mkOr ms = .error "Or() requires at least 2 matchers")
    ∧ (2 ≤ ms.length →
        mkAnd ms = .ok (.andOp ms)
        ∧ mkOr ms = .ok (.orOp ms)
        ∧ dictGet (Matcher.to_ir (.andOp ms)) "matchers"
            = some (.arr (ms.map (fun x => .obj x.to_ir)))
        ∧ dictGet (Matcher.to_ir (.orOp ms)) "matchers"
            = some (.arr (ms.map (fun x => .obj x.to_ir)))
        ∧ (ms.map (fun x => JValue.obj x.to_ir)).length = ms.length)
    ∧ Matcher.to_ir (mkNot m)
        = [("type", .str "logic_not"), ("matcher", .obj m.to_ir)] := by
  refine ⟨?_, ?_, ?_⟩
  · intro h
    constructor
    · simp [mkAnd, h]
    · simp [mkOr, h]
  · intro h
    have hn : ¬ ms.length < 2 := by omega
    refine ⟨by simp [mkAnd, hn], by simp [mkOr, hn], ?_, ?_, by simp⟩
    · simp [Matcher.to_ir, toIrList_eq_map, dictGet, List.lookup]
    · simp [Matcher.to_ir, toIrList_eq_map, dictGet, List.lookup]
  · simp [mkNot, Matcher.to_ir]

/-- Witness for C8 at the empty list (failure side) and a concrete
two-element list (success side). -/
theorem C8_witness :
    (([] : List Matcher).length < 2
      ∧ mkAnd [] = .error "And() requires at least 2 matchers"
      ∧ mkOr [] = .error "Or() requires at least 2 matchers")
    ∧ (2 ≤ ([Matcher.var ⟨"a", false⟩, Matcher.var ⟨"b", false⟩] : List Matcher).length
      ∧ mkAnd [Matcher.var ⟨"a", false⟩, Matcher.var ⟨"b", false⟩]
          = .ok (.andOp [Matcher.var ⟨"a", false⟩, Matcher.var ⟨"b", false⟩])
      ∧ mkOr [Matcher.var ⟨"a", false⟩, Matcher.var ⟨"b", false⟩]
          = .ok (.orOp [Matcher.var ⟨"a", false⟩, Matcher.var ⟨"b", false⟩])) :=
  ⟨⟨by decide,
    ((C8_logic_operators [] (Matcher.var ⟨"a", false⟩)).1 (by decide)).1,
    ((C8_logic_operators [] (Matcher.var ⟨"a", false⟩)).1 (by decide)).2⟩,
   ⟨by decide,
    ((C8_logic_operators [Matcher.var ⟨"a", false⟩, Matcher.var ⟨"b", false⟩]
        (Matcher.var ⟨"a", false⟩)).2.1 (by decide)).1,
    ((C8_logic_operators [Matcher.var ⟨"a", false⟩, Matcher.var ⟨"b", false⟩]
        (Matcher.var ⟨"a", false⟩)).2.1 (by decide)).2.1⟩⟩

/-- A successfully constructed call matcher on the single pattern `"eval"`,
with no argument constraints (used for the C2 refutation). -/
def c2Matcher : CallMatcher :=
  { patterns := ["eval"], wildcard := false, match_position := [], match_name := [] }

/-- C2 counterexample: the sdk `CallMatcher.to_ir` emits the fixed mode
field under the key `"matchMode"`, not `"match_mode"` as the claim states:
at the successfully constructed matcher `calls("eval")` the serialized
object has no `"match_mode"` field at all. -/
theorem C2_counterexample :
    CallMatcher.init ["eval"] none none = .ok c2Matcher
    ∧ dictGet c2Matcher.to_ir "match_mode" = none
    ∧ dictGet c2Matcher.to_ir "matchMode" = some (.str "any") :=
  ⟨by rfl, by rfl, by rfl⟩

/-- C2 (amended): for every sdk `CallMatcher`, `to_ir()` produces exactly
an object with fields `type = "call_matcher"`, `patterns`, `wildcard` and
`matchMode = "any"` (the mode key is camel-cased in this variant), plus a
`positionalArgs` field only if the positional-argument constraint mapping
is non-empty and a `keywordArgs` field only if the keyword-argument
constraint mapping is non-empty, and no other fields; the python-dsl
`CallMatcher` variant, which has no argument-constraint mappings, emits
exactly `type`, `patterns`, `wildcard` and `match_mode = "any"`. -/
theorem C2_amended (m : CallMatcher) (dm : DSL.CallMatcher) :
    m.to_ir.map Prod.fst
      = ["type", "patterns", "wildcard", "matchMode"]
        ++ (if m.match_position.isEmpty then [] else ["positionalArgs"])
        ++ (if m.match_name.isEmpty then [] else ["keywordArgs"])
    ∧ dictGet m.to_ir "type" = some (.str "call_matcher")
    ∧ dictGet m.to_ir "matchMode" = some (.str "any")
    ∧ dictGet m.to_ir "match_mode" = none
    ∧ dm.to_ir.map Prod.fst = ["type", "patterns", "wildcard", "match_mode"]
    ∧ dictGet dm.to_ir "match_mode" = some (.str "any") := by
  have hbase :
      CallMatcher.to_ir m
        = ([("type", JValue.str "call_matcher"),
            ("patterns", .arr (m.patterns.map .str)),
            ("wildcard", .bool m.wildcard),
            ("matchMode", .str "any")]
          ++ (if m.match_position.isEmpty then []
              else [("positionalArgs", .obj m.positionalArgsIr)]))
          ++ (if m.match_name.isEmpty then []
              else [("keywordArgs", .obj m.keywordArgsIr)]) := by
    unfold CallMatcher.to_ir
    by_cases hp : m.match_position.isEmpty
    · by_cases hn : m.match_name.isEmpty
      · simp [hp, hn]
      · simp only [hp, hn, Bool.false_eq_true, ite_true, ite_false]
        rw [dictSet_of_fresh _ _ _ (by simp)]
        simp
    · by_cases hn : m.match_name.isEmpty
      · simp only [hp, hn, Bool.false_eq_true, ite_true, ite_false]
        rw [dictSet_of_fresh _ _ _ (by simp)]
        simp
      · simp only [hp, hn, Bool.false_eq_true, ite_true, ite_false]
        rw [dictSet_of_fresh _ _ _ (by simp [dictSet])]
        rw [dictSet_of_fresh _ _ _ (by simp)]
  refine ⟨?_, ?_, ?_, ?_, rfl, rfl⟩
  · rw [hbase]
    by_cases hp : m.match_position.isEmpty <;> by_cases hn : m.match_name.isEmpty <;>
      simp [hp, hn]
  · rw [hbase]
    simp [dictGet, List.lookup]
  · rw [hbase]
    simp [dictGet, List.lookup]
  · rw [hbase]
    by_cases hp : m.match_position.isEmpty <;> by_cases hn : m.match_name.isEmpty <;>
      simp [hp, hn, dictGet, List.lookup]

/-- The wildcard flag of an emitted argument constraint is the auto-detected
flag or-ed with the owning matcher's pattern-level wildcard. -/
theorem emitConstraint_wildcard_lookup (m : CallMatcher) (v : ArgumentValue) :
    dictGet (m.emitConstraint v) "wildcard"
      = some (.bool (argHasWildcard v || m.wildcard)) := by
  unfold CallMatcher.emitConstraint CallMatcher.make_constraint
  by_cases h : m.wildcard
  · simp [h, dictSet, dictGet, List.lookup]
  · simp [h, dictGet, List.lookup]

/-- With pairwise-distinct rendered keys, the positional-argument dict is
the elementwise image of the `match_position` mapping. -/
theorem positionalArgsIr_eq_map (m : CallMatcher)
    (hnd : (m.match_position.map (fun e => e.1.toStr)).Nodup) :
    m.positionalArgsIr
      = m.match_position.map (fun e => (e.1.toStr, .obj (m.emitConstraint e.2))) := by
  unfold CallMatcher.positionalArgsIr
  have h := foldl_dictSet_of_nodup (fun e : PosKey × ArgumentValue => e.1.toStr)
    (fun e => .obj (m.emitConstraint e.2)) m.match_position [] hnd (by simp)
  simpa using h

/-- With pairwise-distinct keys, the keyword-argument dict is the
elementwise image of the `match_name` mapping. -/
theorem keywordArgsIr_eq_map (m : CallMatcher)
    (hnd : (m.match_name.map Prod.fst).Nodup) :
    m.keywordArgsIr
      = m.match_name.map (fun e => (e.1, .obj (m.emitConstraint e.2))) := by
  unfold CallMatcher.keywordArgsIr
  have h := foldl_dictSet_of_nodup (fun e : String × ArgumentValue => e.1)
    (fun e => .obj (m.emitConstraint e.2)) m.match_name [] hnd (by simp)
  simpa using h

/-- C5: for every `CallMatcher` and every entry of its `match_position` /
`match_name` mappings, the emitted argument constraint's wildcard flag is
true if and only if the entry's value is a string containing `*` or `?`,
or a list with some string element containing `*` or `?`, or the owning
matcher's pattern-level wildcard is true; and (under distinct rendered
keys) each entry is emitted into the respective argument dict with exactly
that constraint. -/
theorem C5_argument_wildcard (m : CallMatcher) (k : PosKey) (n : String)
    (v w : ArgumentValue)
    (hndp : (m.match_position.map (fun e => e.1.toStr)).Nodup)
    (hmemp : (k, v) ∈ m.match_position)
    (hndn : (m.match_name.map Prod.fst).Nodup)
    (hmemn : (n, w) ∈ m.match_name) :
    (k.toStr, .obj (m.emitConstraint v)) ∈ m.positionalArgsIr
    ∧ (n, .obj (m.emitConstraint w)) ∈ m.keywordArgsIr
    ∧ (∀ u : ArgumentValue,
        dictGet (m.emitConstraint u) "wildcard" = some (.bool true)
          ↔ (argHasWildcard u = true ∨ m.wildcard = true)) := by
  refine ⟨?_, ?_, ?_⟩
  · rw [positionalArgsIr_eq_map m hndp]
    exact List.mem_map_of_mem _ hmemp
  · rw [keywordArgsIr_eq_map m hndn]
    exact List.mem_map_of_mem _ hmemn
  · intro u
    rw [emitConstraint_wildcard_lookup]
    constructor
    · intro h
      have hb : (argHasWildcard u || m.wildcard) = true := by
        have := Option.some.inj h
        exact (JValue.bool.inj this)
      exact Bool.or_eq_true_iff.mp hb
    · intro h
      have hb : (argHasWildcard u || m.wildcard) = true := Bool.or_eq_true_iff.mpr h
      rw [hb]

/-- The concrete matcher
`calls("socket.bind", match_position={0: "192.168.*"}, match_name={"debug": True})`
used as the C5 witness input. -/
def c5Matcher : CallMatcher :=
  { patterns := ["socket.bind"]
    wildcard := false
    match_position := [(PosKey.int 0, ArgumentValue.scalar (.s "192.168.*"))]
    match_name := [("debug", ArgumentValue.scalar (.b true))] }

/-- Witness for C5 at `c5Matcher`. -/
theorem C5_witness :
    (c5Matcher.match_position.map (fun e => e.1.toStr)).Nodup
    ∧ (PosKey.int 0, ArgumentValue.scalar (.s "192.168.*")) ∈ c5Matcher.match_position
    ∧ (c5Matcher.match_name.map Prod.fst).Nodup
    ∧ ("debug", ArgumentValue.scalar (.b true)) ∈ c5Matcher.match_name
    ∧ ((PosKey.int 0).toStr,
        .obj (c5Matcher.emitConstraint (ArgumentValue.scalar (.s "192.168.*"))))
        ∈ c5Matcher.positionalArgsIr
    ∧ ("debug", .obj (c5Matcher.emitConstraint (ArgumentValue.scalar (.b true))))
        ∈ c5Matcher.keywordArgsIr :=
  ⟨by decide, List.Mem.head _, by decide, List.Mem.head _,
   (C5_argument_wildcard c5Matcher (PosKey.int 0) "debug"
      (ArgumentValue.scalar (.s "192.168.*")) (ArgumentValue.scalar (.b true))
      (by decide) (List.Mem.head _) (by decide) (List.Mem.head _)).1,
   (C5_argument_wildcard c5Matcher (PosKey.int 0) "debug"
      (ArgumentValue.scalar (.s "192.168.*")) (ArgumentValue.scalar (.b true))
      (by decide) (List.Mem.head _) (by decide) (List.Mem.head _)).2.1⟩

/-- Modelled from the spec's words for comparison with the source: a
`call_matcher` node's `"patterns"` field is a non-empty list whose
elements are all strings. -/
def patternsNonEmptyStringList (ir : Dict) : Bool :=
  match dictGet ir "patterns" with
  | some (.arr ps) =>
      !ps.isEmpty && ps.all (fun p => match p with | .str _ => true | _ => false)
  | _ => false

/-- A decoded `call_matcher` node whose `patterns` list is non-empty but
contains a non-string element. -/
def c3Node : Dict :=
  [("type", .str "call_matcher"),
   ("patterns", .arr [.int 7]),
   ("wildcard", .bool false)]

/-- C3 counterexample: `validate_ir` checks only that `"patterns"` is a
non-empty list, not that its elements are strings, so on a node whose
patterns list is `[7]` it returns true although the claimed
characterization (non-empty list *of strings*) demands false. -/
theorem C3_counterexample :
    validate_ir c3Node = true ∧ patternsNonEmptyStringList c3Node = false :=
  ⟨by rfl, by rfl⟩

/-- C3 (amended): `validate_ir` is a total boolean function on decoded IR
nodes, and for a node whose `"type"` is `"call_matcher"` it returns true
if and only if the node has a `"patterns"` field that is a non-empty list
(elements of any type) and a `"wildcard"` field that is a boolean. -/
theorem C3_validate_ir_call_matcher (ir : Dict)
    (h : dictGet ir "type" = some (.str "call_matcher")) :
    validate_ir ir = true
      ↔ ((∃ ps, dictGet ir "patterns" = some (.arr ps) ∧ ps ≠ [])
          ∧ ∃ b, dictGet ir "wildcard" = some (.bool b)) := by
  have hred : validate_ir ir =
      ((match dictGet ir "patterns" with
        | some (.arr ps) => !ps.isEmpty
        | _ => false)
       &&
       (match dictGet ir "wildcard" with
        | some (.bool _) => true
        | _ => false)) := by
    unfold validate_ir
    rw [h]
    rfl
  rw [hred]
  constructor
  · intro hval
    rcases Bool.and_eq_true_iff.mp hval with ⟨h1, h2⟩
    constructor
    · cases hps : dictGet ir "patterns" with
      | none => rw [hps] at h1; exact absurd h1 (by simp)
      | some pv =>
        cases pv with
        | arr ps =>
            refine ⟨ps, rfl, ?_⟩
            rw [hps] at h1
            simpa using h1
        | str s => rw [hps] at h1; exact absurd h1 (by simp)
        | int n => rw [hps] at h1; exact absurd h1 (by simp)
        | float x => rw [hps] at h1; exact absurd h1 (by simp)
        | bool b => rw [hps] at h1; exact absurd h1 (by simp)
        | null => rw [hps] at h1; exact absurd h1 (by simp)
        | obj fs => rw [hps] at h1; exact absurd h1 (by simp)
    · cases hw : dictGet ir "wildcard" with
      | none => rw [hw] at h2; exact absurd h2 (by simp)
      | some wv =>
        cases wv with
        | bool b => exact ⟨b, rfl⟩
        | str s => rw [hw] at h2; exact absurd h2 (by simp)
        | int n => rw [hw] at h2; exact absurd h2 (by simp)
        | float x => rw [hw] at h2; exact absurd h2 (by simp)
        | null => rw [hw] at h2; exact absurd h2 (by simp)
        | arr xs => rw [hw] at h2; exact absurd h2 (by simp)
        | obj fs => rw [hw] at h2; exact absurd h2 (by simp)
  · rintro ⟨⟨ps, hps, hne⟩, ⟨b, hb⟩⟩
    rw [hps, hb]
    simp [hne]

/-- Witness for C3 at a well-formed `call_matcher` node. -/
theorem C3_witness :
    dictGet [("type", JValue.str "call_matcher"),
             ("patterns", .arr [.str "eval"]),
             ("wildcard", .bool false)] "type" = some (.str "call_matcher")
    ∧ (validate_ir [("type", JValue.str "call_matcher"),
                    ("patterns", .arr [.str "eval"]),
                    ("wildcard", .bool false)] = true
        ↔ ((∃ ps, dictGet [("type", JValue.str "call_matcher"),
                           ("patterns", .arr [.str "eval"]),
                           ("wildcard", .bool false)] "patterns"
              = some (.arr ps) ∧ ps ≠ [])
            ∧ ∃ b, dictGet [("type", JValue.str "call_matcher"),
                            ("patterns", .arr [.str "eval"]),
                            ("wildcard", .bool false)] "wildcard"
              = some (.bool b))) :=
  ⟨by rfl,
   C3_validate_ir_call_matcher
     [("type", JValue.str "call_matcher"),
      ("patterns", .arr [.str "eval"]),
      ("wildcard", .bool false)] (by rfl)⟩

/-- C4: in `DataflowMatcher` construction, an unset (`None`) propagation
argument is resolved from the process-wide default at construction time,
whereas an explicitly passed empty list is kept as the empty list; the same
unset-versus-explicit distinction holds for `scope`, which defaults to the
process-wide default scope when unset and is kept when passed explicitly. -/
theorem C4_dataflow_defaults (cfg : PathfinderConfig)
    (src snk : CallMatcherOrList) (san : Option CallMatcherOrList)
    (sc : Option String) (props : Option (List PropagationPrimitive)) (s : String) :
    (∀ m, DataflowMatcher.init src snk san none none cfg = .ok m →
        m.propagates_through = cfg.default_propagation
        ∧ m.scope = cfg.default_scope)
    ∧ (∀ m, DataflowMatcher.init src snk san (some []) sc cfg = .ok m →
        m.propagates_through = [])
    ∧ (∀ m, DataflowMatcher.init src snk san props (some s) cfg = .ok m →
        m.scope = s) := by
  refine ⟨?_, ?_, ?_⟩
  · intro m hm
    simp only [DataflowMatcher.init] at hm
    split at hm
    · exact absurd hm (by simp)
    · split at hm
      · exact absurd hm (by simp)
      · split at hm
        · cases hm
          exact ⟨rfl, rfl⟩
        · exact absurd hm (by simp)
  · intro m hm
    simp only [DataflowMatcher.init] at hm
    split at hm
    · exact absurd hm (by simp)
    · split at hm
      · exact absurd hm (by simp)
      · split at hm
        · cases hm
          rfl
        · exact absurd hm (by simp)
  · intro m hm
    simp only [DataflowMatcher.init] at hm
    split at hm
    · exact absurd hm (by simp)
    · split at hm
      · exact absurd hm (by simp)
      · split at hm
        · cases hm
          rfl
        · exact absurd hm (by simp)

/-- A minimal call matcher used as source/sink in witnesses. -/
def cmA : CallMatcher :=
  { patterns := ["a"], wildcard := false, match_position := [], match_name := [] }

/-- The dataflow matcher obtained from `cmA` sources/sinks with every
argument left unset, under the initial configuration. -/
def dfDefault : DataflowMatcher :=
  { sources := [cmA], sinks := [cmA], sanitizers := []
    propagates_through := [], scope := "global" }

/-- Witness for C4 at concrete sources/sinks and the initial
configuration. -/
theorem C4_witness :
    DataflowMatcher.init (.single cmA) (.single cmA) none none none initialConfig
      = .ok dfDefault
    ∧ dfDefault.propagates_through = initialConfig.default_propagation
    ∧ dfDefault.scope = initialConfig.default_scope :=
  ⟨by rfl,
   ((C4_dataflow_defaults initialConfig (.single cmA) (.single cmA) none none none
      "local").1 dfDefault (by rfl)).1,
   ((C4_dataflow_defaults initialConfig (.single cmA) (.single cmA) none none none
      "local").1 dfDefault (by rfl)).2⟩

/-- The configuration's stored scope is a member of `{local, global}`. -/
def scopeValid (cfg : PathfinderConfig) : Prop :=
  cfg.default_scope = "local" ∨ cfg.default_scope = "global"

/-- Every setter call preserves the scope invariant. -/
theorem scopeValid_applyConfigOp (cfg : PathfinderConfig) (op : ConfigOp)
    (h : scopeValid cfg) : scopeValid (applyConfigOp cfg op) := by
  cases op with
  | setPropagation ps => exact h
  | setScope v =>
      by_cases hv : v ∈ ["local", "global"]
      · simp only [applyConfigOp, set_default_scope, if_pos hv]
        simp only [List.mem_cons, List.mem_singleton, List.not_mem_nil, or_false] at hv
        exact hv
      · simp only [applyConfigOp, set_default_scope, if_neg hv]
        exact h

/-- The scope invariant holds in every reachable configuration. -/
theorem scopeValid_runConfigOps (ops : List ConfigOp) :
    scopeValid (runConfigOps ops) := by
  unfold runConfigOps
  have hgen : ∀ cfg, scopeValid cfg → scopeValid (ops.foldl applyConfigOp cfg) := by
    induction ops with
    | nil => intro cfg h; exact h
    | cons op ops ih =>
        intro cfg h
        exact ih (applyConfigOp cfg op) (scopeValid_applyConfigOp cfg op h)
  exact hgen initialConfig (Or.inr rfl)

/-- C10: the stored default scope is always in `{local, global}` — it is
initialized to `"global"`, the setter raises for any other value while
leaving the stored value unchanged, the getter therefore always returns
`"local"` or `"global"`, and a `DataflowMatcher` constructed with scope
unset (on non-empty sources/sinks) never fails the scope validity check. -/
theorem C10_scope_invariant (ops : List ConfigOp) (v : String)
    (src snk : CallMatcherOrList)
    (hv : ¬(v = "local" ∨ v = "global"))
    (hs : src.normalize.isEmpty = false) (hk : snk.normalize.isEmpty = false) :
    initialConfig.default_scope = "global"
    ∧ (get_default_scope (runConfigOps ops) = "local"
        ∨ get_default_scope (runConfigOps ops) = "global")
    ∧ set_default_scope (runConfigOps ops) v
        = .error ("scope must be local or global, got " ++ v)
    ∧ applyConfigOp (runConfigOps ops) (.setScope v) = runConfigOps ops
    ∧ ∃ m, DataflowMatcher.init src snk none none none (runConfigOps ops) = .ok m
        ∧ m.scope = get_default_scope (runConfigOps ops) := by
  have hnv : v ∉ (["local", "global"] : List String) := by
    simp only [List.mem_cons, List.mem_singleton, List.not_mem_nil, or_false]
    exact hv
  have hinv := scopeValid_runConfigOps ops
  refine ⟨rfl, hinv, ?_, ?_, ?_⟩
  · unfold set_default_scope
    rw [if_neg hnv]
  · simp only [applyConfigOp, set_default_scope, if_neg hnv]
  · have hmem : (runConfigOps ops).default_scope ∈ (["local", "global"] : List String) := by
      rcases hinv with h | h <;> simp [h]
    refine ⟨{ sources := src.normalize, sinks := snk.normalize, sanitizers := []
              propagates_through := (runConfigOps ops).default_propagation
              scope := (runConfigOps ops).default_scope }, ?_, rfl⟩
    unfold DataflowMatcher.init
    rw [if_neg (by simp [hs]), if_neg (by simp [hk])]
    simp only [get_default_propagation, get_default_scope]
    rw [if_pos hmem]

/-- Witness for C10 at a rejected setter call followed by an accepted one. -/
theorem C10_witness :
    ¬(("weird" : String) = "local" ∨ ("weird" : String) = "global")
    ∧ (CallMatcherOrList.single cmA).normalize.isEmpty = false
    ∧ (get_default_scope (runConfigOps [.setScope "weird", .setScope "local"]) = "local"
        ∨ get_default_scope (runConfigOps [.setScope "weird", .setScope "local"]) = "global")
    ∧ set_default_scope (runConfigOps [.setScope "weird", .setScope "local"]) "weird"
        = .error ("scope must be local or global, got " ++ "weird")
    ∧ ∃ m, DataflowMatcher.init (.single cmA) (.single cmA) none none none
          (runConfigOps [.setScope "weird", .setScope "local"]) = .ok m
        ∧ m.scope = get_default_scope (runConfigOps [.setScope "weird", .setScope "local"]) :=
  ⟨by decide, by rfl,
   (C10_scope_invariant [.setScope "weird", .setScope "local"] "weird"
      (.single cmA) (.single cmA) (by decide) (by rfl) (by rfl)).2.1,
   (C10_scope_invariant [.setScope "weird", .setScope "local"] "weird"
      (.single cmA) (.single cmA) (by decide) (by rfl) (by rfl)).2.2.1,
   (C10_scope_invariant [.setScope "weird", .setScope "local"] "weird"
      (.single cmA) (.single cmA) (by decide) (by rfl) (by rfl)).2.2.2.2⟩

/-- C6: arming the exit-time emission hook is idempotent — arming a second
time is a no-op, so after arming twice exactly one handler is registered
and exactly one emission occurs at process exit, not two; and if the rule
registry is empty at exit time, nothing is printed to standard output. -/
theorem C6_exit_hook_idempotent (s : EmissionState) (reg : List Rule)
    (js : List JValue)
    (h0 : s.autoExecuteEnabled = false) (h1 : s.handlers = 0)
    (h2 : reg ≠ []) (h3 : collectExecutes reg = .ok js) :
    enableAutoExecute (enableAutoExecute s) = enableAutoExecute s
    ∧ (enableAutoExecute (enableAutoExecute s)).handlers = 1
    ∧ runExitHandlers (enableAutoExecute (enableAutoExecute s)) reg
        = [JValue.arr js]
    ∧ runExitHandlers (enableAutoExecute (enableAutoExecute s)) []
        = ([] : List JValue)
    ∧ output_rules [] = ([] : List JValue) := by
  have henabled : enableAutoExecute s
      = { autoExecuteEnabled := true, handlers := s.handlers + 1 } := by
    unfold enableAutoExecute
    rw [if_neg (by simp [h0])]
  have htwice : enableAutoExecute (enableAutoExecute s) = enableAutoExecute s := by
    rw [henabled]
    unfold enableAutoExecute
    rw [if_pos rfl]
  have hout : output_rules reg = [JValue.arr js] := by
    unfold output_rules
    rw [if_neg (by simp [h2]), h3]
  refine ⟨htwice, ?_, ?_, ?_, rfl⟩
  · rw [htwice, henabled, h1]
  · rw [htwice, henabled, h1]
    unfold runExitHandlers
    simp [hout]
  · rw [htwice, henabled, h1]
    unfold runExitHandlers
    simp [output_rules]

/-- A call matcher on the single pattern `"eval"`, the matcher tree
produced by the witness rule below. -/
def evalMatcher : Matcher := .call c2Matcher

/-- A registered rule whose producer returns `calls("eval")`. -/
def ruleOk : Rule :=
  { id := "r1", name := "detect_eval", severity := "high"
    cwe := none, owasp := none, description := "Detects eval calls"
    func := fun _ => .ok evalMatcher }

/-- Witness for C6: starting from the interpreter-start state, arming the
hook twice and exiting with a one-rule registry prints exactly one JSON
array. -/
theorem C6_witness :
    emissionInit.autoExecuteEnabled = false
    ∧ emissionInit.handlers = 0
    ∧ ([ruleOk] : List Rule) ≠ []
    ∧ collectExecutes [ruleOk] = .ok [Rule.execute ruleOk |>.toOption.getD .null]
    ∧ (enableAutoExecute (enableAutoExecute emissionInit)).handlers = 1
    ∧ runExitHandlers (enableAutoExecute (enableAutoExecute emissionInit)) [ruleOk]
        = [JValue.arr [Rule.execute ruleOk |>.toOption.getD .null]]
    ∧ output_rules [] = ([] : List JValue) :=
  ⟨rfl, rfl, by simp, by rfl,
   (C6_exit_hook_idempotent emissionInit [ruleOk]
      [Rule.execute ruleOk |>.toOption.getD .null] rfl rfl (by simp) (by rfl)).2.1,
   (C6_exit_hook_idempotent emissionInit [ruleOk]
      [Rule.execute ruleOk |>.toOption.getD .null] rfl rfl (by simp) (by rfl)).2.2.1,
   (C6_exit_hook_idempotent emissionInit [ruleOk]
      [Rule.execute ruleOk |>.toOption.getD .null] rfl rfl (by simp) (by rfl)).2.2.2.2⟩

/-- A rule-producing function whose body raises. -/
def failingFunc : PyFunc :=
  { name := "boom", doc := none
    call := fun _ => .error "matcher construction failed" }

/-- C1 counterexample: the decorator does not invoke the producer function
at registration — applying it to a function whose body raises still
appends the rule to the (initially empty) registry, refuting "a rule whose
producer function raises is never appended to the process-wide registry". -/
theorem C1_counterexample :
    failingFunc.call () = .error "matcher construction failed"
    ∧ (ruleDecorator "r1" "high" none none failingFunc [] false emissionInit).2.1
        = [Rule.init "r1" "high" failingFunc none none] :=
  ⟨rfl, rfl⟩

/-- C1 (amended): applying the rule decorator to a zero-argument function
does not invoke the function at registration; it captures the metadata
(`__name__`, `__doc__`) and appends the `Rule` to the process-wide registry
unconditionally — even when the producer function would raise — and the
producer runs once per `execute()` call at emission time, where its error
propagates. -/
theorem C1_registration_lazy (id severity : String) (cwe owasp : Option String)
    (func : PyFunc) (registry : List Rule) (isMain : Bool) (s : EmissionState)
    (err : String) (h : func.call () = .error err) :
    (ruleDecorator id severity cwe owasp func registry isMain s).2.1
      = registry ++ [(ruleDecorator id severity cwe owasp func registry isMain s).1]
    ∧ (ruleDecorator id severity cwe owasp func registry isMain s).1.name = func.name
    ∧ (ruleDecorator id severity cwe owasp func registry isMain s).1.description
        = func.doc.getD ""
    ∧ Rule.execute (ruleDecorator id severity cwe owasp func registry isMain s).1
        = .error err := by
  refine ⟨rfl, rfl, rfl, ?_⟩
  unfold ruleDecorator registerRule Rule.init Rule.execute
  simp [h]

/-- Witness for C1 at the failing producer `failingFunc`. -/
theorem C1_witness :
    failingFunc.call () = .error "matcher construction failed"
    ∧ (ruleDecorator "r2" "low" none none failingFunc [] false emissionInit).2.1
        = [] ++ [(ruleDecorator "r2" "low" none none failingFunc [] false emissionInit).1]
    ∧ Rule.execute (ruleDecorator "r2" "low" none none failingFunc [] false emissionInit).1
        = .error "matcher construction failed" :=
  ⟨rfl,
   (C1_registration_lazy "r2" "low" none none failingFunc [] false emissionInit
      "matcher construction failed" rfl).1,
   (C1_registration_lazy "r2" "low" none none failingFunc [] false emissionInit
      "matcher construction failed" rfl).2.2.2⟩

end CodePathfinder
